import Mathlib

/-!
Verification of the Brick Art Publisher handlers.

This file shallow-embeds the JavaScript handlers of the repository
(`src/api/submit.js` and its draft variants under `src/unnamed/`,
`src/api/email-image.js`, `src/api/email-design.js`) as executable Lean
definitions and proves the specification claims about them.

Conventions of the embedding:
* A JavaScript string-or-undefined value is `Option String`; the truthiness
  test `!x` is `falsy`, which is true for `none` and for `some ""`.
* Fallible code is `Except String α`; a caught rejection (`.catch`) maps an
  error to `none` via `resolveUpload`.
* Network activity is made observable either by an `UploadAction`
  constructor (`.skip` = return null before any fetch, `.post` = an HTTP
  request is issued) or by an explicit list / count of upstream calls.
-/

/-- JavaScript `x || d` for a string-or-undefined `x`: the default `d` is
used when `x` is `undefined` or the empty string (both falsy). -/
def jsOr (v : Option String) (d : String) : String :=
  match v with
  | none => d
  | some s => if s = "" then d else s

/-- JavaScript `!x` for a string-or-undefined `x`. -/
def falsy (v : Option String) : Bool :=
  match v with
  | none => true
  | some s => s = ""

/-- JavaScript truthiness of a number-or-undefined (`0` is falsy). -/
def idTruthy (v : Option Nat) : Bool :=
  match v with
  | none => false
  | some n => !(n == 0)

/-! ### The `esc` helper (src/api/submit.js line 149)

`const esc = (s = "") => String(s).replace(/[&<>"]/g, (m) => ({ "&": "&amp;",
"<": "&lt;", ">": "&gt;", '"': "&quot;" }[m]));`

The regex class names exactly four characters; each is replaced by its
entity, every other character is kept. -/

/-- Per-character replacement table of `esc`. -/
def escChar (c : Char) : List Char :=
  if c = '&' then "&amp;".data
  else if c = '<' then "&lt;".data
  else if c = '>' then "&gt;".data
  else if c = '"' then "&quot;".data
  else [c]

/-- The `esc` helper of src/api/submit.js (also part_003 line 117,
part_007 line 47): global replacement of the four characters of the regex
class over the whole string. -/
def esc (s : String) : String := ⟨s.data.flatMap escChar⟩

/-- The apostrophe character, written via its code point. -/
def apos : String := String.singleton (Char.ofNat 39)

/-! ### The composed article body (src/api/submit.js lines 149-161)

```
const body_html = `
      <p><strong>Nickname:</strong> ${esc(nickname || "Brick artist")}</p>
      ${meta ? `<p>${esc(meta)}</p>` : ""}
      ${cleanUrl ? `<p><img src="${cleanUrl}" alt="Design (clean)" /></p>` : ""}
      ${logoUrl  ? `<p><img src="${logoUrl}"  alt="Design (logo)"  /></p>` : ""}
    `;
```
-/

/-- The clean-image block of the template: rendered only when `cleanUrl`
is truthy (`cleanUrl` is `null` after a failed or absent upload). -/
def cleanBlock (cleanUrl : Option String) : String :=
  match cleanUrl with
  | none => ""
  | some u => if u = "" then "" else "<p><img src=\"" ++ u ++ "\" alt=\"Design (clean)\" /></p>"

/-- The logo-image block of the template (note the double spaces of the
source template). -/
def logoBlock (logoUrl : Option String) : String :=
  match logoUrl with
  | none => ""
  | some u => if u = "" then "" else "<p><img src=\"" ++ u ++ "\"  alt=\"Design (logo)\"  /></p>"

/-- The `body_html` template literal of src/api/submit.js lines 156-161,
with its literal newlines and indentation. -/
def body_html (nickname : Option String) (meta : String)
    (cleanUrl logoUrl : Option String) : String :=
  ("\n      <p><strong>Nickname:</strong> " ++ esc (jsOr nickname "Brick artist")
      ++ "</p>\n      "
      ++ (if meta = "" then "" else "<p>" ++ esc meta ++ "</p>") ++ "\n      ")
  ++ cleanBlock cleanUrl ++ ("\n      ")
  ++ logoBlock logoUrl ++ ("\n    ")

/-- `Promise.all([...].catch(e => null))` of src/api/submit.js lines
138-141: a rejected upload resolves to `null`, a fulfilled one to its URL;
the two uploads are resolved independently. -/
def resolveUpload (r : Except String String) : Option String :=
  match r with
  | .ok u => some u
  | .error _ => none

/-! ### The part_000 composer (src/unnamed/part_000 lines 21-47)

This draft interpolates every field into the article HTML with no escaping
at all. Fields arrive already defaulted by the destructuring defaults of
lines 9-19, so they are plain strings here. -/

/-- The brick list of part_000 line 21-23: one `li` per entry, unescaped. -/
def part000BrickListHtml (brickCounts : List (String × Int)) : String :=
  String.join (brickCounts.map fun e =>
    "<li>" ++ e.1 ++ " – " ++ toString e.2 ++ "</li>")

/-- The article HTML of part_000 lines 33-47 (image tags omitted, i.e. the
case of a submission without images); every field is interpolated raw. -/
def part000ArticleHtml (nickname category grid baseplate totalBricks : String)
    (brickListHtml : String) (timestamp : String) : String :=
  "\n      <p><strong>Artist:</strong> " ++ nickname ++ "</p>\n      "
  ++ "<p><strong>Category:</strong> " ++ category ++ "</p>\n      "
  ++ "<p><strong>Grid Size:</strong> " ++ grid ++ " x " ++ grid ++ "</p>\n      "
  ++ "<p><strong>Baseplate:</strong> " ++ baseplate ++ "</p>\n      "
  ++ "<p><strong>Total Bricks:</strong> " ++ totalBricks ++ "</p>\n      "
  ++ (if brickListHtml = "" then ""
      else "<p><strong>Brick Breakdown:</strong></p><ul>" ++ brickListHtml ++ "</ul>")
  ++ "\n      \n      \n      <p><em>Submitted on " ++ timestamp ++ "</em></p>\n    "

/-! ### The polling uploader (src/api/submit.js lines 52-107)

`uploadFile` posts the attachment; when the creation response carries no
URL it polls `/files.json` at a fixed 700 ms interval, at most 10 times
(`for (let i = 0; i < 10 && !url; i++)`), matching the target filename
against `filename` or `url` of each listed file; when the window elapses
without a match it throws. This section embeds the poll loop, indexing the
listing responses by attempt number. -/

/-- A file entry of the `/files.json` listing. The source normalizes
missing fields with `|| ""`, so absent filename or url is `""`. -/
structure FileEntry where
  filename : String
  url : String
deriving DecidableEq

/-- List version of string prefix matching (used to embed `includes`). -/
def listStartsWith : List Char → List Char → Bool
  | [], _ => true
  | _ :: _, [] => false
  | a :: as, b :: bs => a == b && listStartsWith as bs

/-- Helper for `jsIncludes`, scanning every suffix. -/
def includesFrom (pat : List Char) : List Char → Bool
  | [] => listStartsWith pat []
  | c :: rest => listStartsWith pat (c :: rest) || includesFrom pat rest

/-- JavaScript `s.includes(pat)`. -/
def jsIncludes (s pat : String) : Bool := includesFrom pat.data s.data

/-- The match predicate of the poll loop (src/api/submit.js lines 90-94):
`(fName && fName.includes(filename)) || (fUrl && fUrl.includes(filename))`. -/
def entryMatches (target : String) (f : FileEntry) : Bool :=
  (!f.filename.isEmpty && jsIncludes f.filename target)
    || (!f.url.isEmpty && jsIncludes f.url target)

/-- One poll iteration over a listing: find the first matching entry and
take its URL when present (`if (match && match.url) url = match.url`); an
entry matching by name but with an empty URL yields nothing and the loop
continues. -/
def pollStep (target : String) (files : List FileEntry) : Option String :=
  match files.find? (entryMatches target) with
  | some f => if f.url.isEmpty then none else some f.url
  | none => none

/-- The poll loop of src/api/submit.js lines 82-98, with the listing
returned by the i-th GET given by `fetchList`. Returns the resolved URL
(if any) together with the number of listing requests issued. -/
def pollFrom (fetchList : Nat → List FileEntry) (target : String) :
    Nat → Nat → Option String × Nat
  | _, 0 => (none, 0)
  | i, fuel + 1 =>
    match pollStep target (fetchList i) with
    | some url => (some url, 1)
    | none =>
      let r := pollFrom fetchList target (i + 1) fuel
      (r.1, r.2 + 1)

/-- The full poll window: attempts start at 0 with the configured maximum
of 10 attempts. -/
def uploadPoll (fetchList : Nat → List FileEntry) (target : String) :
    Option String × Nat :=
  pollFrom fetchList target 0 10

/-- Outcome of `uploadFile` on the path where the creation call succeeded
with no immediate URL (src/api/submit.js lines 81-106): the polled URL, or
the timeout error thrown after the window elapses. -/
def uploadFileResult (fetchList : Nat → List FileEntry) (target : String) :
    Except String String :=
  match (uploadPoll fetchList target).1 with
  | some u => .ok u
  | none => .error "File upload succeeded but no URL was found after polling."

/-- A mocked upstream for the polling scenario of the spec: the listing is
empty on the first attempt and contains the target file on the second. -/
def fetchListEx : Nat → List FileEntry := fun i =>
  if i = 1 then [⟨"t-clean.png", "https://cdn.example/t-clean.png"⟩] else []

/-! ### Upload short-circuit (src/unnamed/part_003 lines 53-63 and
src/api/submit.js lines 52-58)

`uploadToFiles` (part_003) strips a data-URI prefix and all whitespace and
returns `null` before any network call when the remaining base64 is
shorter than 100 characters. The rollback `uploadFile` (submit.js) strips
only the prefix and posts any non-empty payload. -/

/-- A character of the regex class `[a-zA-Z0-9.+-]` (the mime subtype part
of the data-URI prefix of part_003 line 57). -/
def isMimeChar (c : Char) : Bool :=
  c.isAlpha || c.isDigit || c == '.' || c == '+' || c == '-'

/-- A character of the regex class `\w` (the mime subtype part of the
data-URI prefix of src/api/submit.js line 55). -/
def isWordChar (c : Char) : Bool :=
  c.isAlpha || c.isDigit || c == '_'

/-- `replace(/^data:image\/<class>+;base64,/, "")` for a given subtype
character class: strip the prefix when the string starts with
`data:image/`, one or more class characters, and `;base64,`. -/
def stripDataUriHead (cls : Char → Bool) (s : String) : String :=
  if listStartsWith "data:image/".data s.data then
    let rest := s.data.drop 11
    let mime := rest.takeWhile cls
    let t := rest.drop mime.length
    if 0 < mime.length && listStartsWith ";base64,".data t then ⟨t.drop 8⟩
    else s
  else s

/-- `replace(/\s+/g, "")` of part_003 line 58: drop every whitespace
character. -/
def stripWhitespace (s : String) : String :=
  ⟨s.data.filter (fun c => !c.isWhitespace)⟩

/-- What an uploader does before its first network request: `.skip` means
it returned `null` without any fetch, `.post b` means it issued the POST
to `/files.json` with payload `b`. -/
inductive UploadAction where
  | skip : UploadAction
  | post : String → UploadAction
deriving DecidableEq

/-- The pre-network phase of `uploadToFiles` (src/unnamed/part_003 lines
53-65): falsy payloads and payloads whose stripped base64 is shorter than
100 characters short-circuit to `null`. -/
def uploadToFilesAction (b64 : Option String) : UploadAction :=
  match b64 with
  | none => .skip
  | some s =>
    if s = "" then .skip
    else
      let base64 := stripWhitespace (stripDataUriHead isMimeChar s)
      if base64.length < 100 then .skip else .post base64

/-- The pre-network phase of the rollback `uploadFile` (src/api/submit.js
lines 52-66): only falsy payloads short-circuit; any other payload is
posted, with no minimum-length check. -/
def uploadFileAction (b64 : Option String) : UploadAction :=
  match b64 with
  | none => .skip
  | some s =>
    if s = "" then .skip
    else .post (stripDataUriHead isWordChar s)

/-! ### Handler tail after article creation (src/unnamed/part_007 lines
409-491 and src/api/submit.js lines 163-215)

The article-creation response is checked first; on non-success the handler
returns 500 at once (part_007 includes the upstream errors-or-text as
`detail`, the rollback handler a fixed message with no detail) and the
metafield steps further down are never reached. On success the metafield
writes run inside try/catch blocks whose outcome is only logged. -/

/-- An upstream HTTP response as the handlers see it: `ok`/`status` from
fetch, `errors` the parsed `errors` field (`""` when absent, matching the
falsy check of `articleJson?.errors || articleText`), `text` the raw body. -/
structure UpstreamResp where
  ok : Bool
  status : Nat
  errors : String
  text : String
deriving DecidableEq

/-- The JSON response the handler sends back; absent fields are `none`. -/
structure Response where
  status : Nat
  ok : Bool
  error : String := ""
  detail : Option String := none
  articleId : Option Nat := none
deriving DecidableEq

/-- Upstream side-channel calls a handler can issue after article
creation. -/
inductive Call where
  | metafieldCounts : Call
  | metafieldEmail : Call
deriving DecidableEq

/-- src/unnamed/part_007 lines 414-491: the tail of the staged-upload
handler after the article-creation fetch. `mfCounts`/`mfEmail` are the
outcomes of the two metafield calls; each runs in a try/catch whose result
is only logged, so it does not flow into the response. Returns the
response and the metafield calls issued. -/
def part007AfterCreate (ar : UpstreamResp) (parsedId : Option Nat)
    (countsNonEmpty : Bool) (submitterEmail : Option String)
    (mfCounts mfEmail : Except String UpstreamResp) : Response × List Call :=
  if ar.ok then
    let calls1 : List Call :=
      if idTruthy parsedId && countsNonEmpty then [.metafieldCounts] else []
    let calls2 : List Call :=
      if idTruthy parsedId && !falsy submitterEmail then [.metafieldEmail] else []
    let _ := mfCounts
    let _ := mfEmail
    ({ status := 200, ok := true, articleId := parsedId }, calls1 ++ calls2)
  else
    ({ status := 500, ok := false, error := "Failed to create blog post",
       detail := some (if ar.errors = "" then ar.text else ar.errors) }, [])

/-- src/api/submit.js lines 174-215: the tail of the rollback handler
after the article-creation fetch. On failure the 500 body carries only the
fixed message (no upstream detail); on success the single submitter-email
metafield call runs in a try/catch whose outcome is only logged. -/
def v1AfterCreate (ar : UpstreamResp) (parsedId : Option Nat)
    (submitterEmail : Option String)
    (mfEmail : Except String UpstreamResp) : Response × List Call :=
  if ar.ok then
    let calls : List Call :=
      if idTruthy parsedId && !falsy submitterEmail then [.metafieldEmail] else []
    let _ := mfEmail
    ({ status := 200, ok := true, articleId := parsedId }, calls)
  else
    ({ status := 500, ok := false, error := "Create article failed" }, [])

/-! ### The brick-count breakdown (src/unnamed/part_007 lines 345-363)

```
const entries = Object.entries(countsObj)
  .filter(([, n]) => Number(n) > 0)
  .sort((a, b) => Number(b[1]) - Number(a[1])); // highest first
const countsHtml = entries.length ? `...<ul>...${entries.map(...)}...` : "";
```

`Object.entries` of the mapping is an association list; `Array.prototype.sort`
is specified as a stable sort, here with the descending-count comparator
`(a, b) => Number(b[1]) - Number(a[1])`. Any stable sort realizes it; the
embedding uses a stable insertion sort, which the kernel can evaluate. -/

/-- The positive-count filter of part_007 line 346. -/
def positiveEntries (counts : List (String × Int)) : List (String × Int) :=
  counts.filter (fun e => 0 < e.2)

/-- Stable descending insert: `a` goes in front of the first element whose
count is less than or equal to its own, so earlier elements win ties. -/
def insertDesc (a : String × Int) : List (String × Int) → List (String × Int)
  | [] => [a]
  | b :: l => if b.2 ≤ a.2 then a :: b :: l else b :: insertDesc a l

/-- The stable descending-count sort of part_007 line 347. -/
def sortEntries : List (String × Int) → List (String × Int)
  | [] => []
  | a :: l => insertDesc a (sortEntries l)

/-- One list item of the breakdown (part_007 line 357), escaped color and
numeric count. -/
def liOf (e : String × Int) : String :=
  "<li>" ++ esc e.1 ++ ": " ++ toString e.2 ++ "</li>"

/-- `countsHtml` of part_007 lines 349-363: empty when no entry survives
the positive filter, otherwise the trimmed div/ul template around the
sorted items. -/
def countsHtml (counts : List (String × Int)) : String :=
  let entries := sortEntries (positiveEntries counts)
  if entries.isEmpty then ""
  else
    "<div style=\"margin:8px 0 14px 0;\">\n          <strong>Brick counts:</strong>\n          <ul style=\"margin:.35rem 0 0 0; padding-left:1.15rem; line-height:1.3;\">\n            "
      ++ String.join (entries.map liOf)
      ++ "\n          </ul>\n        </div>"

/-! ### The buildArticleHTML brick list (src/api/submit.js lines 352-363)

The second submit.js variant has its own composer:

```
const brickList = brickCounts
  ? `<p><strong>Brick Breakdown:</strong></p>
     <ul>
       ${Object.entries(brickCounts).map(([color, count]) => {
           const nice = color.charAt(0).toUpperCase() + color.slice(1).toLowerCase();
           return `<li>${nice}: ${count}</li>`;
         }).join("")}
     </ul>`
  : "";
```

It performs no filtering and no sorting, and the truthiness test is on the
object itself, so an empty-but-present mapping still renders the wrapper. -/

/-- `color.charAt(0).toUpperCase() + color.slice(1).toLowerCase()` of
src/api/submit.js lines 357-358. -/
def niceColor (s : String) : String :=
  match s.data with
  | [] => ""
  | c :: rest => ⟨c.toUpper :: rest.map Char.toLower⟩

/-- The `brickList` of `buildArticleHTML` (src/api/submit.js lines
352-363): `none` models an absent/falsy `brickCounts`; a present object
(even empty) renders the wrapper with the entries in insertion order. -/
def buildArticleBrickList (brickCounts : Option (List (String × Int))) : String :=
  match brickCounts with
  | none => ""
  | some entries =>
      "<p><strong>Brick Breakdown:</strong></p>\n       <ul>\n         "
        ++ String.join (entries.map fun e =>
              "<li>" ++ niceColor e.1 ++ ": " ++ toString e.2 ++ "</li>")
        ++ "\n       </ul>"

/-! ### Request validation (src/api/submit.js lines 125-127 and 470-475)

The rollback handler rejects with 400 when the timestamp is falsy or both
image payloads are falsy, before any upload or article call. The GraphQL
draft (second variant, lines 470-475) checks only nickname and timestamp
and then proceeds to the uploads and the article-creation call. -/

/-- The rollback handler from validation onward (src/api/submit.js lines
125-141 and beyond): a rejected request returns 400 immediately with zero
upstream calls; otherwise the rest of the pipeline `rest` runs (uploads,
article creation, ...). -/
def v1Submit (timestamp imageClean imageLogo : Option String)
    (rest : Unit → Response × Nat) : Response × Nat :=
  if falsy timestamp || (falsy imageClean && falsy imageLogo) then
    ({ status := 400, ok := false,
       error := "Missing required fields (timestamp and at least one image)" }, 0)
  else rest ()

/-- `uploadSingleImageToShopify` of the GraphQL draft (src/api/submit.js
lines 249-252) returns `""` without any fetch when the payload or its trim
is falsy; otherwise it issues one GraphQL call. This counts its upstream
calls. -/
def v2UploadCalls (b64 : Option String) : Nat :=
  match b64 with
  | none => 0
  | some s => if s = "" || s.trim = "" then 0 else 1

/-- The GraphQL draft handler (src/api/submit.js lines 441-524) from
validation onward: 400 only when nickname or timestamp is falsy; the image
payloads are not validated, and a passing request always issues the
article-creation call (counted together with any upload calls). -/
def v2Submit (nickname timestamp imageClean imageLogo : Option String)
    (articleOk : Bool) : Response × Nat :=
  if falsy nickname || falsy timestamp then
    ({ status := 400, ok := false,
       error := "Missing required fields (nickname/timestamp)" }, 0)
  else
    let calls := v2UploadCalls imageClean + v2UploadCalls imageLogo + 1
    if articleOk then ({ status := 200, ok := true }, calls)
    else ({ status := 500, ok := false, error := "Failed to create article" }, calls)

/-! ### Configuration checks (src/unnamed/part_007 lines 20-41 and
src/api/email-image.js lines 4-45)

Both handlers read their configuration from the environment on every
request: part_007 answers 500 "Server not configured" when a value is
missing, email-image.js merely logs at module load and answers 500
"Email service not configured" per request. Neither aborts the process
before serving. -/

/-- The environment values the submit handler needs. -/
structure SubmitEnv where
  store : Option String
  token : Option String
  blogId : Option String

/-- The front of the part_007 handler (lines 20-41): OPTIONS preflight,
method guard, then the per-request environment check; only a request that
passes all three reaches the pipeline `rest`. Returns the response and the
number of upstream calls. -/
def part007Handler (method : String) (env : SubmitEnv)
    (rest : Unit → Response × Nat) : Response × Nat :=
  if method = "OPTIONS" then ({ status := 204, ok := true }, 0)
  else if method ≠ "POST" then
    ({ status := 405, ok := false, error := "Method Not Allowed" }, 0)
  else if falsy env.store || falsy env.token || falsy env.blogId then
    ({ status := 500, ok := false, error := "Server not configured" }, 0)
  else rest ()

/-- The front of the email-image handler (src/api/email-image.js lines
13-45): preflight, method guard, then the per-request key check. `none`
means the front produced no early response and the request proceeds to
body parsing. -/
def emailImageFront (sendgridKey : Option String) (method : String) :
    Option Response :=
  if method = "OPTIONS" then some { status := 200, ok := true }
  else if method ≠ "POST" then
    some { status := 405, ok := false, error := "Method not allowed" }
  else if falsy sendgridKey then
    some { status := 500, ok := false, error := "Email service not configured" }
  else none

/-! ### The PDF notifier defaults (src/api/email-design.js lines 5-7 and
91-100)

```
const FROM_EMAIL = process.env.FROM_EMAIL || "designs@brick-art.com";
const BCC_EMAIL = process.env.BCC_EMAIL || "gallery@brick-art.com";
...
personalizations: [ { to: [{ email }], ...(BCC_EMAIL ? { bcc: [...] } : {}), subject } ]
```
-/

/-- Hard-coded default sender of email-design.js line 6. -/
def FROM_DEFAULT : String := "designs@brick-art.com"

/-- Hard-coded default BCC of email-design.js line 7. -/
def BCC_DEFAULT : String := "gallery@brick-art.com"

/-- `FROM_EMAIL` as resolved at module load. -/
def fromEmail (env : Option String) : String := jsOr env FROM_DEFAULT

/-- `BCC_EMAIL` as resolved at module load. -/
def bccEmail (env : Option String) : String := jsOr env BCC_DEFAULT

/-- The personalization object of the SendGrid payload (email-design.js
lines 92-100); the `bcc` key is spread in only when `BCC_EMAIL` is truthy. -/
structure Personalization where
  toAddrs : List String
  bcc : Option (List String)
  subject : String
deriving DecidableEq

/-- Builds the personalization of the payload the notifier submits. -/
def sgPersonalization (recipient : String) (bcc : String) : Personalization :=
  { toAddrs := [recipient]
    bcc := if bcc = "" then none else some [bcc]
    subject := "Your Brick Art mosaic design" }

/-! ## Helper lemmas -/

/-- A rendered clean-image block is nonempty exactly when the URL is a
truthy string. -/
theorem cleanBlock_ne_iff (cu : Option String) :
    cleanBlock cu ≠ "" ↔ ∃ u, cu = some u ∧ u ≠ "" := by
  cases cu with
  | none => simp [cleanBlock]
  | some u =>
    by_cases h : u = ""
    · simp [cleanBlock, h, String.ext_iff]
    · simp [cleanBlock, h, String.ext_iff]
      exact ⟨u, rfl, by simpa [String.ext_iff] using h⟩

/-- A rendered logo-image block is nonempty exactly when the URL is a
truthy string. -/
theorem logoBlock_ne_iff (lu : Option String) :
    logoBlock lu ≠ "" ↔ ∃ u, lu = some u ∧ u ≠ "" := by
  cases lu with
  | none => simp [logoBlock]
  | some u =>
    by_cases h : u = ""
    · simp [logoBlock, h, String.ext_iff]
    · simp [logoBlock, h, String.ext_iff]
      exact ⟨u, rfl, by simpa [String.ext_iff] using h⟩

/-- The replacement of a single character never yields a literal `<`, `>`
or `"`. -/
theorem escChar_all_safe (a : Char) :
    (escChar a).all (fun c => c != '<' && c != '>' && c != '"') = true := by
  unfold escChar
  split
  · decide
  split
  · decide
  split
  · decide
  split
  · decide
  next h1 h2 h3 h4 =>
    simp only [List.all_cons, List.all_nil, Bool.and_true, Bool.and_eq_true,
      bne_iff_ne, ne_eq]
    exact ⟨⟨fun h => h2 h, fun h => h3 h⟩, fun h => h4 h⟩

/-- No character of an escaped string is a literal `<`, `>` or `"`. -/
theorem esc_no_reserved (s : String) :
    ∀ c ∈ (esc s).data, c ≠ '<' ∧ c ≠ '>' ∧ c ≠ '"' := by
  intro c hc
  have hdata : (esc s).data = s.data.flatMap escChar := rfl
  rw [hdata, List.mem_flatMap] at hc
  obtain ⟨a, _, hca⟩ := hc
  have := escChar_all_safe a
  rw [List.all_eq_true] at this
  have h := this c hca
  simp only [Bool.and_eq_true, bne_iff_ne, ne_eq] at h
  exact ⟨h.1.1, h.1.2, h.2⟩

/-- The poll loop issues at most `fuel` listing requests. -/
theorem pollFrom_count_le (f : Nat → List FileEntry) (t : String) :
    ∀ fuel i, (pollFrom f t i fuel).2 ≤ fuel := by
  intro fuel
  induction fuel with
  | zero => intro i; simp [pollFrom]
  | succ n ih =>
    intro i
    simp only [pollFrom]
    cases h : pollStep t (f i) with
    | some u => simp [h]
    | none =>
      simp only [h]
      exact Nat.succ_le_succ (ih (i + 1))

/-- A successful poll result comes from the first attempt whose listing
matches, and the loop stops right there. -/
theorem pollFrom_some (f : Nat → List FileEntry) (t : String) :
    ∀ fuel i u, (pollFrom f t i fuel).1 = some u →
      ∃ d, d < fuel ∧ pollStep t (f (i + d)) = some u
        ∧ (∀ j, j < d → pollStep t (f (i + j)) = none)
        ∧ (pollFrom f t i fuel).2 = d + 1 := by
  intro fuel
  induction fuel with
  | zero => intro i u h; simp [pollFrom] at h
  | succ n ih =>
    intro i u h
    simp only [pollFrom] at h ⊢
    cases hstep : pollStep t (f i) with
    | some v =>
      simp only [hstep] at h ⊢
      refine ⟨0, Nat.succ_pos n, ?_, ?_, rfl⟩
      · simpa [Nat.add_zero] using hstep.trans (congrArg some (Option.some.inj h))
      · intro j hj; omega
    | none =>
      simp only [hstep] at h ⊢
      obtain ⟨d, hd, hs, hnone, hcount⟩ := ih (i + 1) u h
      refine ⟨d + 1, by omega, ?_, ?_, ?_⟩
      · have : i + (d + 1) = i + 1 + d := by omega
        rw [this]; exact hs
      · intro j hj
        cases j with
        | zero => simpa [Nat.add_zero] using hstep
        | succ k =>
          have : i + (k + 1) = i + 1 + k := by omega
          rw [this]
          exact hnone k (by omega)
      · simp [hcount]

/-- When no attempt of the window matches, the loop yields no URL. -/
theorem pollFrom_none (f : Nat → List FileEntry) (t : String) :
    ∀ fuel i, (∀ d, d < fuel → pollStep t (f (i + d)) = none) →
      (pollFrom f t i fuel).1 = none := by
  intro fuel
  induction fuel with
  | zero => intro i _; simp [pollFrom]
  | succ n ih =>
    intro i hall
    simp only [pollFrom]
    have h0 : pollStep t (f i) = none := by
      simpa [Nat.add_zero] using hall 0 (Nat.succ_pos n)
    simp only [h0]
    exact ih (i + 1) fun d hd => by
      have : i + 1 + d = i + (d + 1) := by omega
      rw [this]
      exact hall (d + 1) (by omega)

/-- Membership in a stable descending insert. -/
theorem mem_insertDesc {y a : String × Int} {l : List (String × Int)} :
    y ∈ insertDesc a l ↔ y = a ∨ y ∈ l := by
  induction l with
  | nil => simp [insertDesc]
  | cons b m ih =>
    by_cases h : b.2 ≤ a.2
    · simp only [insertDesc, h, if_pos, List.mem_cons]
    · simp only [insertDesc, h, if_neg, not_false_eq_true, List.mem_cons, ih]
      tauto

/-- A stable descending insert is a permutation of consing. -/
theorem insertDesc_perm (a : String × Int) (l : List (String × Int)) :
    List.Perm (insertDesc a l) (a :: l) := by
  induction l with
  | nil => simp [insertDesc]
  | cons b m ih =>
    by_cases h : b.2 ≤ a.2
    · simp [insertDesc, h]
    · simp only [insertDesc, h, if_neg, not_false_eq_true]
      exact (ih.cons b).trans (List.Perm.swap a b m)

/-- The embedded sort permutes its input. -/
theorem sortEntries_perm (l : List (String × Int)) : List.Perm (sortEntries l) l := by
  induction l with
  | nil => simp [sortEntries]
  | cons a m ih =>
    exact (insertDesc_perm a (sortEntries m)).trans (ih.cons a)

/-- Inserting into a descending list keeps it descending. -/
theorem pairwise_insertDesc (a : String × Int) (l : List (String × Int))
    (h : l.Pairwise (fun x y => y.2 ≤ x.2)) :
    (insertDesc a l).Pairwise (fun x y => y.2 ≤ x.2) := by
  induction l with
  | nil => simp [insertDesc]
  | cons b m ih =>
    rw [List.pairwise_cons] at h
    by_cases hba : b.2 ≤ a.2
    · simp only [insertDesc, hba, if_pos]
      rw [List.pairwise_cons]
      refine ⟨?_, List.pairwise_cons.mpr h⟩
      intro y hy
      rcases List.mem_cons.mp hy with hyb | hym
      · exact hyb ▸ hba
      · exact le_trans (h.1 y hym) hba
    · simp only [insertDesc, hba, if_neg, not_false_eq_true]
      rw [List.pairwise_cons]
      refine ⟨?_, ih h.2⟩
      intro y hy
      rcases mem_insertDesc.mp hy with hya | hym
      · exact hya ▸ le_of_not_le hba
      · exact h.1 y hym

/-- The embedded sort is descending in the counts. -/
theorem sortEntries_sorted (l : List (String × Int)) :
    (sortEntries l).Pairwise (fun x y => y.2 ≤ x.2) := by
  induction l with
  | nil => simp [sortEntries]
  | cons a m ih => exact pairwise_insertDesc a (sortEntries m) ih

/-- A stable descending insert splits the list at the first element with a
count not above the inserted one; every element left of the insertion
point has a strictly greater count. -/
theorem insertDesc_split (a : String × Int) (t : List (String × Int)) :
    ∃ t1 t2, t = t1 ++ t2 ∧ insertDesc a t = t1 ++ a :: t2
      ∧ ∀ e ∈ t1, ¬ e.2 ≤ a.2 := by
  induction t with
  | nil => exact ⟨[], [], rfl, rfl, by simp⟩
  | cons b m ih =>
    by_cases h : b.2 ≤ a.2
    · exact ⟨[], b :: m, rfl, by simp [insertDesc, h], by simp⟩
    · obtain ⟨t1, t2, ht, hins, hgt⟩ := ih
      refine ⟨b :: t1, t2, by simp [← ht], ?_, ?_⟩
      · simp only [insertDesc, h, if_neg, not_false_eq_true, hins, List.cons_append]
      · intro e he
        rcases List.mem_cons.mp he with rfl | hm
        · exact h
        · exact hgt e hm

/-- Stability of the embedded sort: for every count value, the entries
carrying that count appear in the sorted output in exactly their original
order (their filter fibers agree). -/
theorem sortEntries_stable (l : List (String × Int)) (k : Int) :
    (sortEntries l).filter (fun e => e.2 == k) = l.filter (fun e => e.2 == k) := by
  induction l with
  | nil => rfl
  | cons a m ih =>
    obtain ⟨t1, t2, ht, hins, hgt⟩ := insertDesc_split a (sortEntries m)
    have ht12 : t1.filter (fun e => e.2 == k) ++ t2.filter (fun e => e.2 == k)
        = m.filter (fun e => e.2 == k) := by
      rw [← List.filter_append, ← ht, ih]
    show (insertDesc a (sortEntries m)).filter (fun e => e.2 == k) = _
    rw [hins, List.filter_append, List.filter_cons]
    by_cases hk : a.2 = k
    · have ht1 : t1.filter (fun e => e.2 == k) = [] := by
        rw [List.filter_eq_nil_iff]
        intro e he
        have hgt' := hgt e he
        simp only [beq_iff_eq]
        omega
      have hT2 : t2.filter (fun e => e.2 == k) = m.filter (fun e => e.2 == k) := by
        rw [← ht12, ht1, List.nil_append]
      simp only [hk, beq_self_eq_true, if_pos, ht1, List.nil_append, hT2,
        List.filter_cons, beq_self_eq_true]
    · have hbeq : (a.2 == k) = false := by simp [beq_iff_eq, hk]
      simp only [hbeq, Bool.false_eq_true, if_neg, not_false_eq_true, ht12,
        List.filter_cons]

/-- A present brick-counts object always renders a nonempty breakdown
block in buildArticleHTML, even when the mapping is empty. -/
theorem buildArticleBrickList_some_ne (entries : List (String × Int)) :
    buildArticleBrickList (some entries) ≠ "" := by
  simp [buildArticleBrickList, String.ext_iff]

/-- A nonempty positive filter exhibits an entry with positive count. -/
theorem positiveEntries_ne_nil {counts : List (String × Int)}
    (h : positiveEntries counts ≠ []) : ∃ e ∈ counts, 0 < e.2 := by
  cases hfe : positiveEntries counts with
  | nil => exact absurd hfe h
  | cons e es =>
    have he : e ∈ positiveEntries counts := by rw [hfe]; exact List.mem_cons_self e es
    have := List.mem_filter.mp he
    exact ⟨e, this.1, by simpa using this.2⟩

/-! ## Claim theorems -/

/-- Claim C1: the composed article body splits into fixed parts around the
two image blocks, the parts never depending on the URLs; each image block
is present (nonempty) exactly when the corresponding upload resolved to a
truthy URL; a terminally failed upload (caught to null) contributes no
block, and each block depends only on its own upload result, so one
failure never removes the other block. -/
theorem C1_image_block_iff_resolved_url (cr lr : Except String String)
    (nickname : Option String) (meta : String) :
    (∃ p1 p2 p3, ∀ cu lu : Option String,
        body_html nickname meta cu lu
          = p1 ++ cleanBlock cu ++ p2 ++ logoBlock lu ++ p3)
    ∧ (cleanBlock (resolveUpload cr) ≠ ""
        ↔ ∃ u, resolveUpload cr = some u ∧ u ≠ "")
    ∧ (logoBlock (resolveUpload lr) ≠ ""
        ↔ ∃ u, resolveUpload lr = some u ∧ u ≠ "")
    ∧ (∀ e, cr = .error e → cleanBlock (resolveUpload cr) = "")
    ∧ (∀ e, lr = .error e → logoBlock (resolveUpload lr) = "") := by
  refine ⟨⟨"\n      <p><strong>Nickname:</strong> "
      ++ esc (jsOr nickname "Brick artist") ++ "</p>\n      "
      ++ (if meta = "" then "" else "<p>" ++ esc meta ++ "</p>") ++ "\n      ",
      "\n      ", "\n    ", fun cu lu => rfl⟩,
    cleanBlock_ne_iff _, logoBlock_ne_iff _, ?_, ?_⟩
  · intro e he; subst he; rfl
  · intro e he; subst he; rfl

/-- Claim C1 witness: at a concretely failed clean upload the clean block
is omitted. -/
theorem C1_witness :
    cleanBlock (resolveUpload (.error "upload failed")) = "" :=
  (C1_image_block_iff_resolved_url (.error "upload failed") (.ok "u")
    (some "nick") "Grid: 16").2.2.2.1 "upload failed" rfl

set_option maxRecDepth 4000 in
/-- Claim C2 counterexample: the claim requires every interpolated field
to appear with the five reserved characters escaped; the part_000 composer
interpolates the nickname raw, so the nickname
`<script>alert(1)</script>` appears as live markup in the article HTML,
and the shared `esc` helper leaves the apostrophe (the fifth reserved
character) unescaped. -/
theorem C2_counterexample :
    part000ArticleHtml "<script>alert(1)</script>" "Uncategorized" "Unknown"
        "Unknown" "Unknown" "" ""
      = "\n      <p><strong>Artist:</strong> " ++ "<script>alert(1)</script>"
        ++ "</p>\n      <p><strong>Category:</strong> Uncategorized</p>\n      <p><strong>Grid Size:</strong> Unknown x Unknown</p>\n      <p><strong>Baseplate:</strong> Unknown</p>\n      <p><strong>Total Bricks:</strong> Unknown</p>\n      \n      \n      \n      <p><em>Submitted on </em></p>\n    "
    ∧ esc apos = apos := by
  exact ⟨rfl, rfl⟩

set_option maxRecDepth 4000 in
/-- Claim C2 (corrected): in the composers that use `esc`, interpolated
fields are escaped against four of the five reserved characters - `&`,
`<`, `>` and the double quote - so no literal `<`, `>` or quote survives
escaping and the script nickname appears fully escaped in the composed
body; the apostrophe is passed through unescaped, and the part_000 draft
escapes nothing. -/
theorem C2_escape_four_of_five (s : String) :
    (∀ c ∈ (esc s).data, c ≠ '<' ∧ c ≠ '>' ∧ c ≠ '"')
    ∧ esc "<script>alert(1)</script>" = "&lt;script&gt;alert(1)&lt;/script&gt;"
    ∧ body_html (some "<script>alert(1)</script>") "" none none
        = "\n      <p><strong>Nickname:</strong> "
          ++ "&lt;script&gt;alert(1)&lt;/script&gt;"
          ++ "</p>\n      \n      \n      \n    "
    ∧ esc apos = apos :=
  ⟨esc_no_reserved s, rfl, rfl, rfl⟩

/-- Claim C2 witness: the escaped form of the script nickname, via the
main theorem at the script string. -/
theorem C2_witness :
    esc "<script>alert(1)</script>" = "&lt;script&gt;alert(1)&lt;/script&gt;" :=
  (C2_escape_four_of_five "<script>alert(1)</script>").2.1

/-- Claim C3: the poll loop issues at most the configured 10 listing
requests; when it returns a URL, that URL comes from the first matching
attempt and no further poll is made after it; and when no attempt of the
window matches, the uploader fails with the upload-timeout error instead
of returning a URL or looping on. -/
theorem C3_poll_bounded_returns_or_times_out
    (f : Nat → List FileEntry) (t : String) :
    (uploadPoll f t).2 ≤ 10
    ∧ (∀ u, (uploadPoll f t).1 = some u →
        ∃ k, k < 10 ∧ pollStep t (f k) = some u
          ∧ (∀ j, j < k → pollStep t (f j) = none)
          ∧ (uploadPoll f t).2 = k + 1)
    ∧ ((∀ k, k < 10 → pollStep t (f k) = none) →
        uploadFileResult f t
          = .error "File upload succeeded but no URL was found after polling.") := by
  refine ⟨pollFrom_count_le f t 10 0, ?_, ?_⟩
  · intro u h
    obtain ⟨d, hd, hs, hnone, hcount⟩ := pollFrom_some f t 10 0 u h
    exact ⟨d, hd, by simpa using hs, fun j hj => by simpa using hnone j hj, hcount⟩
  · intro hall
    have : (uploadPoll f t).1 = none :=
      pollFrom_none f t 10 0 fun d hd => by simpa using hall d hd
    simp [uploadFileResult, this]

/-- Claim C3 witness: a mocked upstream listing the file on the second
attempt yields that URL with exactly two polls, inside the window. -/
theorem C3_witness :
    (uploadPoll fetchListEx "t-clean.png").2 ≤ 10
    ∧ ∃ k, k < 10
        ∧ pollStep "t-clean.png" (fetchListEx k)
            = some "https://cdn.example/t-clean.png"
        ∧ (∀ j, j < k → pollStep "t-clean.png" (fetchListEx j) = none)
        ∧ (uploadPoll fetchListEx "t-clean.png").2 = k + 1 :=
  ⟨(C3_poll_bounded_returns_or_times_out fetchListEx "t-clean.png").1,
   (C3_poll_bounded_returns_or_times_out fetchListEx "t-clean.png").2.1
     "https://cdn.example/t-clean.png" (by decide)⟩

/-- Claim C4 counterexample: the rollback `uploadFile` has no
minimum-length threshold, so a 10-character base64 payload proceeds to the
network POST instead of returning null. -/
theorem C4_counterexample :
    uploadFileAction (some "0123456789") = .post "0123456789" := rfl

/-- Claim C4 (corrected): in the part_003 uploader, empty payloads and
payloads whose stripped base64 is shorter than the 100-character threshold
return null before any network call - in particular a 10-character payload
does; the rollback uploadFile of submit.js short-circuits only on empty
payloads. -/
theorem C4_short_payload_skips (b64 : Option String) :
    (uploadToFilesAction b64 = .skip
      ↔ b64 = none ∨ b64 = some "" ∨ ∃ s, b64 = some s ∧ s ≠ ""
          ∧ (stripWhitespace (stripDataUriHead isMimeChar s)).length < 100)
    ∧ uploadToFilesAction (some "0123456789") = .skip
    ∧ uploadFileAction none = .skip
    ∧ uploadFileAction (some "") = .skip := by
  refine ⟨?_, rfl, rfl, rfl⟩
  cases b64 with
  | none => simp [uploadToFilesAction]
  | some s =>
    by_cases hs : s = ""
    · simp [uploadToFilesAction, hs]
    · by_cases hlen : (stripWhitespace (stripDataUriHead isMimeChar s)).length < 100
      · simp [uploadToFilesAction, hs, hlen]
      · simp [uploadToFilesAction, hs, hlen]

/-- Claim C4 witness: the 10-byte payload of the spec example skips the
upload in the part_003 uploader. -/
theorem C4_witness : uploadToFilesAction (some "0123456789") = .skip :=
  (C4_short_payload_skips (some "0123456789")).2.1

/-- Claim C5 counterexample: in the rollback handler a failed article
creation with upstream error text yields the 500 body with a fixed message
and no detail field, so the upstream error detail is not included. -/
theorem C5_counterexample :
    v1AfterCreate ⟨false, 422, "upstream says no", "raw body"⟩ (some 1)
        (some "a@b.example") (.ok ⟨true, 200, "", ""⟩)
      = ({ status := 500, ok := false, error := "Create article failed",
           detail := none, articleId := none }, []) := rfl

/-- Claim C5 (corrected): when article creation returns non-success, the
staged-upload handler (part_007) responds 500 with the upstream errors (or
the raw response text) as detail and issues no metafield call; the
rollback handler also responds 500 with no metafield call, but with a
fixed message that omits the upstream detail. -/
theorem C5_create_failure_500_no_metafield (ar : UpstreamResp)
    (parsedId : Option Nat) (countsNonEmpty : Bool)
    (submitterEmail : Option String) (mfCounts mfEmail : Except String UpstreamResp)
    (h : ar.ok = false) :
    part007AfterCreate ar parsedId countsNonEmpty submitterEmail mfCounts mfEmail
      = ({ status := 500, ok := false, error := "Failed to create blog post",
           detail := some (if ar.errors = "" then ar.text else ar.errors) }, [])
    ∧ v1AfterCreate ar parsedId submitterEmail mfEmail
      = ({ status := 500, ok := false, error := "Create article failed" }, []) := by
  constructor
  · simp [part007AfterCreate, h]
  · simp [v1AfterCreate, h]

/-- Claim C5 witness: a concrete failed creation in part_007 yields the
500 response carrying the upstream error detail and no metafield call. -/
theorem C5_witness :
    part007AfterCreate ⟨false, 422, "upstream says no", "raw body"⟩ (some 1)
        true (some "a@b.example") (.ok ⟨true, 200, "", ""⟩) (.ok ⟨true, 200, "", ""⟩)
      = ({ status := 500, ok := false, error := "Failed to create blog post",
           detail := some "upstream says no" }, []) :=
  (C5_create_failure_500_no_metafield ⟨false, 422, "upstream says no", "raw body"⟩
    (some 1) true (some "a@b.example") (.ok ⟨true, 200, "", ""⟩)
    (.ok ⟨true, 200, "", ""⟩) rfl).1

/-- Claim C6: once the article is created successfully, the response is
200 with ok true and the parsed article identifier, whatever the outcomes
of the caught metafield calls are; the response is the same for any two
metafield outcomes, so the metafield step never changes the request
outcome (in part_007 and in the rollback handler alike). -/
theorem C6_metafield_failure_never_fails_request (ar : UpstreamResp)
    (parsedId : Option Nat) (countsNonEmpty : Bool) (submitterEmail : Option String)
    (mfCounts mfEmail mfCounts2 mfEmail2 : Except String UpstreamResp)
    (h : ar.ok = true) :
    (part007AfterCreate ar parsedId countsNonEmpty submitterEmail mfCounts mfEmail).1
      = { status := 200, ok := true, articleId := parsedId }
    ∧ part007AfterCreate ar parsedId countsNonEmpty submitterEmail mfCounts mfEmail
      = part007AfterCreate ar parsedId countsNonEmpty submitterEmail mfCounts2 mfEmail2
    ∧ (v1AfterCreate ar parsedId submitterEmail mfEmail).1
      = { status := 200, ok := true, articleId := parsedId } := by
  refine ⟨?_, ?_, ?_⟩ <;> simp [part007AfterCreate, v1AfterCreate, h]

/-- Claim C6 witness: with both metafield calls failing, the concrete
response is still 200 with the article identifier. -/
theorem C6_witness :
    (part007AfterCreate ⟨true, 201, "", ""⟩ (some 7) true (some "x@y.example")
        (.error "metafield down") (.error "metafield down")).1
      = { status := 200, ok := true, articleId := some 7 } :=
  (C6_metafield_failure_never_fails_request ⟨true, 201, "", ""⟩ (some 7) true
    (some "x@y.example") (.error "metafield down") (.error "metafield down")
    (.ok ⟨true, 200, "", ""⟩) (.ok ⟨true, 200, "", ""⟩) rfl).1

/-- Claim C7 counterexample, against both cited composers: in part_007
the non-empty mapping red at count 0 renders no breakdown (entries are
filtered to positive counts first); in buildArticleHTML the empty-but-
present mapping still renders the wrapper block, and the mapping blue 2,
red 5 renders blue before red (insertion order, not descending count). -/
theorem C7_counterexample :
    (([(("red" : String), (0 : Int))] ≠ ([] : List (String × Int)))
      ∧ countsHtml [("red", 0)] = "")
    ∧ buildArticleBrickList (some [])
        = "<p><strong>Brick Breakdown:</strong></p>\n       <ul>\n         \n       </ul>"
    ∧ buildArticleBrickList (some [("blue", 2), ("red", 5)])
        = "<p><strong>Brick Breakdown:</strong></p>\n       <ul>\n         "
          ++ "<li>Blue: 2</li>" ++ "<li>Red: 5</li>" ++ "\n       </ul>" :=
  ⟨⟨by decide, rfl⟩, rfl, rfl⟩

set_option maxRecDepth 4000 in
/-- Claim C7 (corrected): the part_007 composer includes the breakdown
list exactly when the mapping has at least one entry with positive count;
the rendered entries are the positive ones, sorted by descending count,
stably - for every count value, the entries carrying it keep their
original order - and the mapping red 5, blue 2 renders red before blue.
The buildArticleHTML composer of the second submit.js variant neither
filters nor sorts: an absent mapping renders nothing, while a present
mapping - even empty - always renders the breakdown block, with entries in
insertion order (blue before red for blue 2, red 5). -/
theorem C7_breakdown_positive_sorted_desc (counts : List (String × Int)) :
    (countsHtml counts ≠ "" ↔ ∃ e ∈ counts, 0 < e.2)
    ∧ (sortEntries (positiveEntries counts)).Pairwise (fun x y => y.2 ≤ x.2)
    ∧ List.Perm (sortEntries (positiveEntries counts)) (positiveEntries counts)
    ∧ (∀ k : Int, (sortEntries (positiveEntries counts)).filter (fun e => e.2 == k)
        = (positiveEntries counts).filter (fun e => e.2 == k))
    ∧ sortEntries (positiveEntries [("red", 5), ("blue", 2)])
        = [("red", 5), ("blue", 2)]
    ∧ countsHtml [("red", 5), ("blue", 2)]
      = "<div style=\"margin:8px 0 14px 0;\">\n          <strong>Brick counts:</strong>\n          <ul style=\"margin:.35rem 0 0 0; padding-left:1.15rem; line-height:1.3;\">\n            "
        ++ "<li>red: 5</li>" ++ "<li>blue: 2</li>"
        ++ "\n          </ul>\n        </div>"
    ∧ buildArticleBrickList none = ""
    ∧ (∀ entries, buildArticleBrickList (some entries) ≠ "")
    ∧ buildArticleBrickList (some [("blue", 2), ("red", 5)])
        = "<p><strong>Brick Breakdown:</strong></p>\n       <ul>\n         "
          ++ "<li>Blue: 2</li>" ++ "<li>Red: 5</li>" ++ "\n       </ul>" := by
  refine ⟨?_, sortEntries_sorted _, sortEntries_perm _,
    fun k => sortEntries_stable _ k, rfl, rfl, rfl,
    fun entries => buildArticleBrickList_some_ne entries, rfl⟩
  have hlen : (sortEntries (positiveEntries counts)).length
      = (positiveEntries counts).length := (sortEntries_perm _).length_eq
  by_cases hp : positiveEntries counts = []
  · have hnil : sortEntries (positiveEntries counts) = [] := by
      apply List.eq_nil_of_length_eq_zero
      rw [hlen, hp]
      rfl
    simp only [countsHtml, hnil, List.isEmpty_nil, if_pos, ne_eq, not_true_eq_false,
      false_iff, not_exists]
    intro e he
    obtain ⟨hmem, hpos⟩ := he
    have : e ∈ positiveEntries counts :=
      List.mem_filter.mpr ⟨hmem, by simpa using hpos⟩
    simp [hp] at this
  · have hne : sortEntries (positiveEntries counts) ≠ [] := by
      intro h0
      apply hp
      apply List.eq_nil_of_length_eq_zero
      rw [← hlen, h0]
      rfl
    have hEmpty : (sortEntries (positiveEntries counts)).isEmpty = false := by
      simpa [List.isEmpty_iff] using hne
    simp only [countsHtml, hEmpty, Bool.false_eq_true, if_neg, not_false_eq_true, ne_eq]
    constructor
    · intro _
      exact positiveEntries_ne_nil hp
    · intro _
      simp [String.ext_iff]

/-- Claim C7 witness: the spec example mapping yields a nonempty
breakdown, via the main theorem. -/
theorem C7_witness : countsHtml [("red", 5), ("blue", 2)] ≠ "" :=
  (C7_breakdown_positive_sorted_desc [("red", 5), ("blue", 2)]).1.mpr
    ⟨("red", 5), by decide, by decide⟩

/-- Claim C8 counterexample: the GraphQL draft validates only nickname and
timestamp, so a submission with both image payloads missing is not
rejected with 400 - it proceeds and issues the article-creation upstream
call (one call counted here). -/
theorem C8_counterexample :
    v2Submit (some "artist") (some "2024-01-01T00:00:00Z") none none true
      = ({ status := 200, ok := true }, 1) := rfl

/-- Claim C8 (corrected): the rollback handler returns 400 naming the
required fields, with zero upstream calls, whenever the timestamp is
missing or both images are missing - for every continuation of the
pipeline; the GraphQL draft checks only nickname and timestamp and lets an
imageless submission through. -/
theorem C8_missing_fields_400_no_upstream
    (timestamp imageClean imageLogo : Option String)
    (rest : Unit → Response × Nat)
    (h : falsy timestamp = true ∨ (falsy imageClean = true ∧ falsy imageLogo = true)) :
    v1Submit timestamp imageClean imageLogo rest
      = ({ status := 400, ok := false,
           error := "Missing required fields (timestamp and at least one image)" }, 0) := by
  have hc : (falsy timestamp || (falsy imageClean && falsy imageLogo)) = true := by
    rcases h with h1 | ⟨h2, h3⟩
    · simp [h1]
    · simp [h2, h3]
  simp [v1Submit, hc]

/-- Claim C8 witness: a concrete submission missing its timestamp is
rejected with 400 and zero upstream calls. -/
theorem C8_witness :
    v1Submit none (some "imgdata") none (fun _ => ({ status := 200, ok := true }, 5))
      = ({ status := 400, ok := false,
           error := "Missing required fields (timestamp and at least one image)" }, 0) :=
  C8_missing_fields_400_no_upstream none (some "imgdata") none
    (fun _ => ({ status := 200, ok := true }, 5)) (Or.inl rfl)

/-- Claim C9 counterexample: with the SendGrid key missing the notifier
handler still serves a POST request, answering 500, and with all store
values missing the part_007 handler does the same - the process does not
fail fast before requests are served. -/
theorem C9_counterexample :
    emailImageFront none "POST"
      = some { status := 500, ok := false, error := "Email service not configured" }
    ∧ part007Handler "POST" ⟨none, none, none⟩
        (fun _ => ({ status := 200, ok := true }, 3))
      = ({ status := 500, ok := false, error := "Server not configured" }, 0) :=
  ⟨rfl, rfl⟩

/-- Claim C9 (corrected): missing configuration is detected per request
inside the handlers, not at process start: with any required store value
missing the part_007 handler answers 500 "Server not configured" with zero
upstream calls for every pipeline continuation, and with the email key
missing the notifier answers 500 "Email service not configured" before
doing any work. -/
theorem C9_missing_config_500_per_request (env : SubmitEnv) (key : Option String)
    (rest : Unit → Response × Nat)
    (henv : (falsy env.store || falsy env.token || falsy env.blogId) = true)
    (hkey : falsy key = true) :
    part007Handler "POST" env rest
      = ({ status := 500, ok := false, error := "Server not configured" }, 0)
    ∧ emailImageFront key "POST"
      = some { status := 500, ok := false, error := "Email service not configured" } := by
  constructor
  · simp [part007Handler, henv]
  · simp [emailImageFront, hkey]

/-- Claim C9 witness: concrete environments missing the token and the key
produce the per-request 500 responses. -/
theorem C9_witness :
    part007Handler "POST" ⟨some "shop.example", none, some "91651211375"⟩
        (fun _ => ({ status := 200, ok := true }, 4))
      = ({ status := 500, ok := false, error := "Server not configured" }, 0)
    ∧ emailImageFront (some "") "POST"
      = some { status := 500, ok := false, error := "Email service not configured" } :=
  C9_missing_config_500_per_request ⟨some "shop.example", none, some "91651211375"⟩
    (some "") (fun _ => ({ status := 200, ok := true }, 4)) rfl rfl

/-- Claim C10: the resolved BCC address is never empty (it falls back to
the gallery default), so the personalization of every payload the PDF
notifier submits carries the BCC recipient and the no-BCC branch is never
taken; the sender likewise falls back to its default. -/
theorem C10_bcc_always_present (envFrom envBcc : Option String) (recipient : String) :
    bccEmail envBcc ≠ ""
    ∧ (sgPersonalization recipient (bccEmail envBcc)).bcc = some [bccEmail envBcc]
    ∧ fromEmail envFrom ≠ ""
    ∧ (envBcc = none → bccEmail envBcc = BCC_DEFAULT)
    ∧ (envFrom = none → fromEmail envFrom = FROM_DEFAULT) := by
  have hbcc : bccEmail envBcc ≠ "" := by
    cases envBcc with
    | none => simp [bccEmail, jsOr, BCC_DEFAULT]
    | some s =>
      by_cases hs : s = "" <;> simp [bccEmail, jsOr, hs, BCC_DEFAULT]
  have hfrom : fromEmail envFrom ≠ "" := by
    cases envFrom with
    | none => simp [fromEmail, jsOr, FROM_DEFAULT]
    | some s =>
      by_cases hs : s = "" <;> simp [fromEmail, jsOr, hs, FROM_DEFAULT]
  refine ⟨hbcc, ?_, hfrom, ?_, ?_⟩
  · simp [sgPersonalization, hbcc]
  · intro h; subst h; rfl
  · intro h; subst h; rfl

/-- Claim C10 witness: with both environment variables unset the payload
personalization carries the default gallery BCC. -/
theorem C10_witness :
    (sgPersonalization "user@example.com" (bccEmail none)).bcc
      = some [bccEmail none] :=
  (C10_bcc_always_present none none "user@example.com").2.1
